import Mathlib

/-!
Shallow embedding of `lewis/adapters/stream.py` (command specs, binding,
request dispatch) and of the adapter-collection scheduler exercised by
`test/test_core_adapters.py`.

Conventions of the embedding:
* Python values flowing through commands are modelled by `PyValue`
  (None, str, int cover everything the claims touch).
* A compiled regular expression (`re.compile`) is modelled by
  `CompiledPattern`: its source text, its capture-group count
  (`re.Pattern.groups`) and an abstract `matchAt` function with the
  semantics of `re.match`: it matches anchored at the START of the input
  and reports where the match stopped (`MatchInfo.stop`) together with the
  captured groups.  `re.match` does not require the match to extend to the
  end of the input, so `matchAt` may succeed with `stop` strictly below the
  input length.
* Python's `re.compile` caches compiled patterns by (text, flags), so two
  compilations of the same text yield the identical object; membership of a
  compiled pattern in the `patterns` set of `_bind_commands` is therefore
  modelled by equality of the pattern's source text.
* Exceptions are modelled with `Except String`; the string is the message.
-/

/-- Values exchanged with device callables: Python None, str and int. -/
inductive PyValue where
  | none
  | str (s : String)
  | int (n : Int)
deriving DecidableEq

/-- Python `str()` restricted to the modelled values. -/
def pyStr : PyValue → String
  | PyValue.none => "None"
  | PyValue.str s => s
  | PyValue.int n => toString n

/-- Result of a successful `re.match`: the position where the match stopped
and the list of captured groups (`match.groups()`). -/
structure MatchInfo where
  stop : Nat
  caps : List String
deriving DecidableEq

/-- A compiled regular expression, as produced by `re.compile(b(pattern), 0)`
in `Cmd.__init__`.  `matchAt` has `re.match` semantics: anchored at the
start of the request, not necessarily reaching its end. -/
structure CompiledPattern where
  source : String
  groups : Nat
  matchAt : String → Option MatchInfo

/-- One argument mapping: a conversion function from a captured string,
which may raise (e.g. `int("abc")`). -/
def ArgMapping : Type := String → Except String PyValue

/-- The `return_mapping` argument of `Cmd`: a callable, a constant, or
`None` (identity) — the three duck-typed cases of `map_return_value`. -/
inductive ReturnMapping where
  | func (f : PyValue → Except String PyValue)
  | const (k : PyValue)
  | ident

/-- Source `Cmd.map_return_value`: callable mappings are applied,
non-callable non-None mappings are returned as constants, a None mapping
returns the value unchanged. -/
def mapReturnValue : ReturnMapping → PyValue → Except String PyValue
  | ReturnMapping.func f, v => f v
  | ReturnMapping.const k, _ => Except.ok k
  | ReturnMapping.ident, v => Except.ok v

/-- The default `return_mapping` of `Cmd.__init__`:
`lambda x: None if x is None else str(x)`. -/
def defaultReturnMapping : ReturnMapping :=
  ReturnMapping.func (fun x => Except.ok (match x with
    | PyValue.none => PyValue.none
    | v => PyValue.str (pyStr v)))

/-- The `func` argument of `Cmd`: either an already callable object or the
name of a member to resolve at bind time. -/
inductive FuncRef where
  | callable (f : List PyValue → Except String PyValue)
  | name (n : String)

/-- A `Cmd` object.  Note that `Cmd.__init__` passes `member=None` up to
`CommandBase.__init__`, so a `Cmd` never carries a member name in its
`member` attribute (the name lives in `func`). -/
structure Cmd where
  func : FuncRef
  pattern : CompiledPattern
  argument_mappings : Option (List ArgMapping)
  return_mapping : ReturnMapping

/-- Source `Cmd.__init__` validation: if `argument_mappings` is not None and
`pattern.groups != len(argument_mappings)`, raise RuntimeError. -/
def mkCmd (func : FuncRef) (pattern : CompiledPattern)
    (argument_mappings : Option (List ArgMapping))
    (return_mapping : ReturnMapping) : Except String Cmd :=
  match argument_mappings with
  | Option.some maps =>
    if pattern.groups ≠ maps.length then
      Except.error ("Expected " ++ toString pattern.groups ++
        " argument mapping(s), got " ++ toString maps.length)
    else
      Except.ok ⟨func, pattern, Option.some maps, return_mapping⟩
  | Option.none => Except.ok ⟨func, pattern, Option.none, return_mapping⟩

deriving instance DecidableEq for Except

/-- The list comprehension `[f(a) for f, a in zip(mappings, arguments)]`:
pairs are consumed left to right, evaluation stops at the shorter of the
two lists, and the first exception raised by a mapping propagates. -/
def mapZipArgs : List ArgMapping → List String → Except String (List PyValue)
  | f :: fs, a :: args =>
    match f a with
    | Except.error e => Except.error e
    | Except.ok v =>
      match mapZipArgs fs args with
      | Except.error e => Except.error e
      | Except.ok vs => Except.ok (v :: vs)
  | [], _ => Except.ok []
  | _ :: _, [] => Except.ok []

/-- Source `Cmd.map_arguments`: if no mappings are defined the captured
strings are returned as they were supplied; otherwise
`[f(a) for f, a in zip(self.argument_mappings, arguments)]` — note that
`zip` stops at the shorter of the two lists. -/
def mapArguments (argument_mappings : Option (List ArgMapping))
    (arguments : List String) : Except String (List PyValue) :=
  match argument_mappings with
  | Option.none => Except.ok (arguments.map PyValue.str)
  | Option.some fs => mapZipArgs fs arguments

def Cmd.map_arguments (c : Cmd) (arguments : List String) :
    Except String (List PyValue) :=
  mapArguments c.argument_mappings arguments

def Cmd.map_return_value (c : Cmd) (return_value : PyValue) :
    Except String PyValue :=
  mapReturnValue c.return_mapping return_value

/-- Source `Cmd.can_process`: `self.pattern.match(request) is not None`. -/
def Cmd.can_process (c : Cmd) (request : String) : Bool :=
  (c.pattern.matchAt request).isSome

/-- Source `Cmd.process_request`: raise on an unbound binder, match the
pattern, map the captured groups, invoke the callable, map its return
value. -/
def Cmd.process_request (c : Cmd) (request : String) :
    Except String PyValue :=
  match c.func with
  | FuncRef.name _ => Except.error "Trying to process request on unbound Binder."
  | FuncRef.callable f =>
    match c.pattern.matchAt request with
    | Option.none => Except.error "Request can not be processed."
    | Option.some m => do
        let args ← c.map_arguments m.caps
        let ret ← f args
        c.map_return_value ret

/-- A bind target (interface or device object): `dir(target)`, callable
members for `getattr` lookups by `Cmd.bind`, and attribute values for
`Var` getters. -/
structure Target where
  members : List String
  callables : String → Option (List PyValue → Except String PyValue)
  attrs : String → PyValue

/-- Source `Cmd.bind`: an already callable `func` binds to itself; a named
`func` is resolved with `getattr(target, self.func, None)`, `None` meaning
the spec could not be bound against this target. -/
def Cmd.bind (c : Cmd) (target : Target) : Option (List Cmd) :=
  match c.func with
  | FuncRef.callable _ => Option.some [c]
  | FuncRef.name n =>
    match target.callables n with
    | Option.none => Option.none
    | Option.some m => Option.some [{ c with func := FuncRef.callable m }]

/-- A `Var` command spec: a member name with optional read and write
patterns. -/
structure Var where
  member : String
  read_pattern : Option CompiledPattern
  write_pattern : Option CompiledPattern
  argument_mappings : Option (List ArgMapping)
  return_mapping : ReturnMapping

/-- The getter commands emitted by `Var.bind`: one `Cmd` when a read
pattern is present (`Cmd(getter, self.read_pattern, return_mapping=...)`,
no argument mappings), none otherwise.  The getter closes over the
target's current attribute value. -/
def varGetterCmds (v : Var) (target : Target) : Except String (List Cmd) :=
  match v.read_pattern with
  | Option.none => Except.ok []
  | Option.some p =>
    match mkCmd (FuncRef.callable (fun _ => Except.ok (target.attrs v.member)))
        p Option.none v.return_mapping with
    | Except.error e => Except.error e
    | Except.ok c => Except.ok [c]

/-- The setter commands emitted by `Var.bind`: one `Cmd` when a write
pattern is present (`Cmd(setter, self.write_pattern,
argument_mappings=..., return_mapping=...)`), none otherwise.  The
setter's mutation of the target is outside this state-free model; its
Python return value is `None`, which is what the model returns. -/
def varSetterCmds (v : Var) (target : Target) : Except String (List Cmd) :=
  match v.write_pattern with
  | Option.none => Except.ok []
  | Option.some p =>
    match mkCmd (FuncRef.callable (fun _ => Except.ok PyValue.none))
        p v.argument_mappings v.return_mapping with
    | Except.error e => Except.error e
    | Except.ok c => Except.ok [c]

/-- Source `Var.bind`: `None` when the member is not in `dir(target)`;
otherwise a getter `Cmd` per read pattern and a setter `Cmd` per write
pattern (possibly the empty list when both patterns are absent).  `Cmd`
construction inside may raise (arity check), hence the `Except`. -/
def Var.bind (v : Var) (target : Target) :
    Except String (Option (List Cmd)) :=
  if v.member ∈ target.members then
    match varGetterCmds v target with
    | Except.error e => Except.error e
    | Except.ok getters =>
      match varSetterCmds v target with
      | Except.error e => Except.error e
      | Except.ok setters => Except.ok (Option.some (getters ++ setters))
  else
    Except.ok Option.none

/-- A command spec as listed in `StreamAdapter.commands`. -/
inductive CommandSpec where
  | cmd (c : Cmd)
  | var (v : Var)

/-- The `member` attribute consulted by the binding error message:
`Cmd.__init__` stores `None` there, `Var` stores the target member name. -/
def CommandSpec.member : CommandSpec → Option String
  | CommandSpec.cmd _ => Option.none
  | CommandSpec.var v => Option.some v.member

def bindSpec : CommandSpec → Target → Except String (Option (List Cmd))
  | CommandSpec.cmd c, t => Except.ok (c.bind t)
  | CommandSpec.var v, t => v.bind t

/-- Python truthiness of `bind`'s result inside
`cmd.bind(self) or cmd.bind(self._device) or None`: both `None` and the
empty list are falsy. -/
def pyTruthyList : Option (List α) → Option (List α)
  | Option.some [] => Option.none
  | x => x

/-- Python `.format` of the member attribute: `None` prints as "None". -/
def pyFormatOpt : Option String → String
  | Option.none => "None"
  | Option.some s => s

/-- The RuntimeError message of `_bind_commands` for an unbindable spec. -/
def missingMemberMsg (m : Option String) : String :=
  "Unable to produce callable object for non-existing member \x27" ++
    pyFormatOpt m ++ "\x27 of device or interface."

/-- The RuntimeError message of `_bind_commands` for a duplicate pattern. -/
def dupPatternMsg (p : String) : String :=
  "The regular expression " ++ p ++ " is associated with multiple commands."

/-- One iteration of `_bind_commands`:
`bound = cmd.bind(self) or cmd.bind(self._device) or None`, raising when
the result is falsy (Python `or` evaluates the second operand only when
the first is falsy; exceptions propagate). -/
def bindOne (spec : CommandSpec) (adapter device : Target) :
    Except String (List Cmd) :=
  match bindSpec spec adapter with
  | Except.error e => Except.error e
  | Except.ok b1 =>
    match pyTruthyList b1 with
    | Option.some l => Except.ok l
    | Option.none =>
      match bindSpec spec device with
      | Except.error e => Except.error e
      | Except.ok b2 =>
        match pyTruthyList b2 with
        | Option.some l => Except.ok l
        | Option.none => Except.error (missingMemberMsg spec.member)

/-- The inner loop of `_bind_commands`: check each bound command's pattern
against the `patterns` set, raise on a duplicate, otherwise record the
pattern and append the command. -/
def addBoundCommands : List Cmd → List String → List Cmd →
    Except String (List String × List Cmd)
  | [], patterns, acc => Except.ok (patterns, acc)
  | c :: rest, patterns, acc =>
    if c.pattern.source ∈ patterns then
      Except.error (dupPatternMsg c.pattern.source)
    else
      addBoundCommands rest (patterns ++ [c.pattern.source]) (acc ++ [c])

def bindCommandsLoop : List CommandSpec → Target → Target → List String →
    List Cmd → Except String (List Cmd)
  | [], _, _, _, acc => Except.ok acc
  | spec :: rest, adapter, device, patterns, acc =>
    match bindOne spec adapter device with
    | Except.error e => Except.error e
    | Except.ok bound =>
      match addBoundCommands bound patterns acc with
      | Except.error e => Except.error e
      | Except.ok pa => bindCommandsLoop rest adapter device pa.1 pa.2

/-- Source `StreamAdapter._bind_commands`: resolve every spec against the
adapter and then the device, enforce pattern uniqueness, and return the
full binding table — or raise, in which case no table is produced at all
(the adapter's constructor aborts). -/
def bindCommands (specs : List CommandSpec) (adapter device : Target) :
    Except String (List Cmd) :=
  bindCommandsLoop specs adapter device [] []

/-- The state of a `StreamAdapter` as seen by `StreamHandler`: the binding
table, the output terminator and the error hook `handle_error` (which
returns an arbitrary Python value, `None` by the default implementation). -/
structure StreamTarget where
  bound_commands : List Cmd
  out_terminator : String
  handle_error : String → String → PyValue

/-- The body of the `try` block of `StreamHandler.found_terminator`:
select the first bound command that can process the request (RuntimeError
when none matches) and process the request with it.  The second component
records which commands had `process_request` invoked on them. -/
def dispatchTry (t : StreamTarget) (request : String) :
    Except String PyValue × List Cmd :=
  match t.bound_commands.find? (fun c => c.can_process request) with
  | Option.none =>
    (Except.error "None of the device\x27s commands matched.", [])
  | Option.some c => (c.process_request request, [c])

/-- The final `if reply is not None: self.push(b(reply + out_terminator))`
of `found_terminator`: `None` pushes nothing, a string is concatenated with
the output terminator, any other value makes `reply + out_terminator`
raise a TypeError (outside the try block, hence uncaught). -/
def pushReply (reply : PyValue) (out_terminator : String) :
    Except String (Option String) :=
  match reply with
  | PyValue.none => Except.ok Option.none
  | PyValue.str s => Except.ok (Option.some (s ++ out_terminator))
  | PyValue.int _ =>
    Except.error "TypeError: can only concatenate str (not int) to str"

/-- Observable outcome of one `found_terminator` call. -/
structure Outcome where
  written : Option String
  uncaught : Option String
  invoked : List Cmd
  hookCalls : List (String × String)

/-- Source `StreamHandler.found_terminator`: dispatch inside a try block;
any exception is replaced by `handle_error(request, error)`, whose result
is then pushed by the same `if reply is not None: push(...)` statement as
a normal reply (here `pushReply` appears once per branch of the caught
exception case split, but it is the one source statement). -/
def foundTerminator (t : StreamTarget) (request : String) : Outcome :=
  match (dispatchTry t request).1, (dispatchTry t request).2 with
  | Except.ok r, invoked =>
    match pushReply r t.out_terminator with
    | Except.ok w => ⟨w, Option.none, invoked, []⟩
    | Except.error te => ⟨Option.none, Option.some te, invoked, []⟩
  | Except.error e, invoked =>
    match pushReply (t.handle_error request e) t.out_terminator with
    | Except.ok w => ⟨w, Option.none, invoked, [(request, e)]⟩
    | Except.error te => ⟨Option.none, Option.some te, invoked, [(request, e)]⟩

/-- One observable action of a scheduler tick. -/
inductive SchedulerEvent where
  | runCycle (protocol : String) (budget : ℚ)
  | idleSleep (budget : ℚ)
deriving DecidableEq

/-- Modelled from the spec: `AdapterCollection.handle` of
`lewis/core/adapters.py` is not among the provided sources (only its unit
test is).  The model follows the scheduler description of the
specification, adjusted to the call pattern asserted by
`TestAdapterCollection.test_handle_calls_all_adapters_or_sleeps`: the
cycle delay is divided by the number of registered adapters; each running
adapter receives one `handle(slice)` call and each non-running adapter
contributes one `sleep(slice)` call, in registration order.  An adapter is
a (protocol name, running flag) pair; time is exact rational arithmetic. -/
def adapterCollectionHandle (adapters : List (String × Bool))
    (cycle_delay : ℚ) : List SchedulerEvent :=
  adapters.map (fun a =>
    if a.2 then SchedulerEvent.runCycle a.1 (cycle_delay / (adapters.length : ℚ))
    else SchedulerEvent.idleSleep (cycle_delay / (adapters.length : ℚ)))

/-! Concrete fixtures used by the witnesses below.  The patterns model the
compiled form of simple regular expressions; their `matchAt` functions
implement `re.match` semantics for those specific expressions. -/

/-- Compiled form of the regex `S=` (unanchored literal): matches any
request starting with "S=", stopping after two characters. -/
def patLitSEq : CompiledPattern :=
  ⟨"S=", 0, fun s =>
    if "S=".data.isPrefixOf s.data then Option.some ⟨2, []⟩ else Option.none⟩

/-- Compiled form of the regex `S` (unanchored literal). -/
def patLitS : CompiledPattern :=
  ⟨"S", 0, fun s =>
    if "S".data.isPrefixOf s.data then Option.some ⟨1, []⟩ else Option.none⟩

/-- Compiled form of the regex `.*`: matches every request (possibly with
an empty match). -/
def patAny : CompiledPattern := ⟨".*", 0, fun s => Option.some ⟨s.length, []⟩⟩

/-- Compiled form of the regex `([0-9])([0-9])`: two single-digit capture
groups. -/
def patTwoGroups : CompiledPattern :=
  ⟨"([0-9])([0-9])", 2, fun s =>
    if s.data.length ≥ 2 && (s.data.take 2).all Char.isDigit then
      Option.some ⟨2, [String.mk (s.data.take 1),
        String.mk ((s.data.drop 1).take 1)]⟩
    else Option.none⟩

/-- The argument mapping `int`: Python `int()` over a nonnegative decimal
string (the only shape the witnesses feed it). -/
def pyIntMapping : ArgMapping := fun s =>
  if !s.data.isEmpty && s.data.all Char.isDigit then
    Except.ok (PyValue.int
      ((s.data.foldl (fun acc c => acc * 10 + (c.toNat - 48)) 0 : Nat) : Int))
  else
    Except.error ("invalid literal for int() with base 10: " ++ s)

/-- The default `StreamAdapter.handle_error`: `pass`, i.e. return None. -/
def defaultHook : String → String → PyValue := fun _ _ => PyValue.none

/-- An error hook that replies with a fixed diagnostic string. -/
def diagHook : String → String → PyValue := fun _ _ => PyValue.str "ERR"

def cmdA : Cmd :=
  ⟨FuncRef.callable (fun _ => Except.ok (PyValue.str "A")), patLitSEq,
    Option.none, defaultReturnMapping⟩

def cmdB : Cmd :=
  ⟨FuncRef.callable (fun _ => Except.ok (PyValue.str "B")), patLitS,
    Option.none, defaultReturnMapping⟩

def tFirstMatch : StreamTarget := ⟨[cmdA, cmdB], "\r", defaultHook⟩

def tNoCommands : StreamTarget := ⟨[], "\r", diagHook⟩

/-- A command whose callable returns None (a pure setter). -/
def cmdNullReply : Cmd :=
  ⟨FuncRef.callable (fun _ => Except.ok PyValue.none), patAny,
    Option.none, defaultReturnMapping⟩

/-- A command whose callable returns the int 10 (default mapping turns it
into the string "10"). -/
def cmdTen : Cmd :=
  ⟨FuncRef.callable (fun _ => Except.ok (PyValue.int 10)), patAny,
    Option.none, defaultReturnMapping⟩

def tNullReply : StreamTarget := ⟨[cmdNullReply], "\r", defaultHook⟩

def tTenReply : StreamTarget := ⟨[cmdTen], "\r", defaultHook⟩

/-- A raw `Cmd` record with two capture groups but a single argument
mapping.  It is NOT constructible through `mkCmd` (the arity check
rejects it); it exists to evaluate `map_arguments` on the mismatched
shape the spec describes.  Its callable reports how many arguments it
received. -/
def cmdMismatch : Cmd :=
  ⟨FuncRef.callable (fun args => Except.ok (PyValue.int (args.length : Int))),
    patTwoGroups, Option.some [pyIntMapping], defaultReturnMapping⟩

def cmdDup1 : Cmd :=
  ⟨FuncRef.callable (fun _ => Except.ok PyValue.none), patLitS,
    Option.none, defaultReturnMapping⟩

def cmdDup2 : Cmd :=
  ⟨FuncRef.callable (fun _ => Except.ok (PyValue.str "x")), patLitS,
    Option.none, defaultReturnMapping⟩

/-- A target with no members at all. -/
def emptyTarget : Target :=
  ⟨[], fun _ => Option.none, fun _ => PyValue.none⟩

/-- An interface-like target exposing `get_speed`. -/
def ifaceTarget : Target :=
  ⟨["get_speed"],
    fun n => if n = "get_speed"
      then Option.some (fun _ => Except.ok (PyValue.str "adapter"))
      else Option.none,
    fun _ => PyValue.none⟩

/-- A device-like target exposing `get_speed` and `dev_only`, both
reporting "device" so the chosen resolution target is observable. -/
def deviceTarget : Target :=
  ⟨["get_speed", "dev_only"],
    fun n => if n = "get_speed" || n = "dev_only"
      then Option.some (fun _ => Except.ok (PyValue.str "device"))
      else Option.none,
    fun _ => PyValue.none⟩

/-- A named-member `Cmd` spec whose member exists on neither target. -/
def cmdNamedMissing : Cmd :=
  ⟨FuncRef.name "missing_method", patAny, Option.none, defaultReturnMapping⟩

/-- A named-member `Cmd` spec whose member exists on both targets. -/
def cmdNamedGet : Cmd :=
  ⟨FuncRef.name "get_speed", patAny, Option.none, defaultReturnMapping⟩

/-- A named-member `Cmd` spec whose member exists only on the device. -/
def cmdNamedDevOnly : Cmd :=
  ⟨FuncRef.name "dev_only", patLitS, Option.none, defaultReturnMapping⟩

/-- A `Var` spec with an existing member but neither a read nor a write
pattern. -/
def varSpeed : Var :=
  ⟨"speed", Option.none, Option.none, Option.none, defaultReturnMapping⟩

/-- A target that does expose the attribute `speed`. -/
def speedTarget : Target :=
  ⟨["speed"], fun _ => Option.none,
    fun n => if n = "speed" then PyValue.int 3 else PyValue.none⟩

/-! Helper lemmas shared by the claim theorems. -/

theorem find_first_of_none_before {α : Type} (p : α → Bool) :
    ∀ (pre : List α) (A : α) (post : List α),
    (∀ c ∈ pre, p c = false) → p A = true →
    (pre ++ A :: post).find? p = Option.some A := by
  intro pre A post
  induction pre with
  | nil =>
    intro _ hA
    simpa using List.find?_cons_of_pos _ hA
  | cons x xs ih =>
    intro hpre hA
    have hx : p x = false := hpre x (List.mem_cons_self x xs)
    rw [List.cons_append, List.find?_cons_of_neg]
    · exact ih (fun c hc => hpre c (List.mem_cons_of_mem x hc)) hA
    · simp [hx]

theorem foundTerminator_okCase (t : StreamTarget) (request : String)
    (r : PyValue) (h : (dispatchTry t request).1 = Except.ok r) :
    foundTerminator t request =
      match pushReply r t.out_terminator with
      | Except.ok w => ⟨w, Option.none, (dispatchTry t request).2, []⟩
      | Except.error te =>
          ⟨Option.none, Option.some te, (dispatchTry t request).2, []⟩ := by
  unfold foundTerminator
  rw [h]

theorem foundTerminator_errCase (t : StreamTarget) (request : String)
    (e : String) (h : (dispatchTry t request).1 = Except.error e) :
    foundTerminator t request =
      match pushReply (t.handle_error request e) t.out_terminator with
      | Except.ok w => ⟨w, Option.none, (dispatchTry t request).2, [(request, e)]⟩
      | Except.error te =>
          ⟨Option.none, Option.some te, (dispatchTry t request).2, [(request, e)]⟩ := by
  unfold foundTerminator
  rw [h]

theorem foundTerminator_invoked_eq (t : StreamTarget) (request : String) :
    (foundTerminator t request).invoked = (dispatchTry t request).2 := by
  cases h : (dispatchTry t request).1 with
  | ok r => rw [foundTerminator_okCase t request r h]; split <;> rfl
  | error e => rw [foundTerminator_errCase t request e h]; split <;> rfl

/-- Claim C5: a command spec with N capture groups and M supplied argument
mappings constructs successfully iff N = M; with the argument mappings
omitted entirely, construction succeeds regardless of the group count.  A
mismatch makes `Cmd.__init__` raise, i.e. a fatal binding-time error. -/
theorem binding_arity_check :
    (∀ (fr : FuncRef) (pat : CompiledPattern) (rm : ReturnMapping)
        (maps : List ArgMapping),
      (mkCmd fr pat (Option.some maps) rm).toOption.isSome = true ↔
        pat.groups = maps.length) ∧
    (∀ (fr : FuncRef) (pat : CompiledPattern) (rm : ReturnMapping),
      (mkCmd fr pat Option.none rm).toOption.isSome = true) := by
  constructor
  · intro fr pat rm maps
    by_cases h : pat.groups = maps.length <;> simp [mkCmd, h, Except.toOption]
  · intro fr pat rm
    simp [mkCmd, Except.toOption]

/-- Claim C9: the return mapping has exactly three behaviors — a callable
mapping is applied to the result, a non-callable non-None mapping is
returned as a constant regardless of the result, a None mapping is the
identity; and the default mapping sends None to None and non-None values
to their string form. -/
theorem return_mapping_three_behaviors :
    (∀ (f : PyValue → Except String PyValue) (v : PyValue),
      mapReturnValue (ReturnMapping.func f) v = f v) ∧
    (∀ (k v : PyValue),
      mapReturnValue (ReturnMapping.const k) v = Except.ok k) ∧
    (∀ (v : PyValue), mapReturnValue ReturnMapping.ident v = Except.ok v) ∧
    mapReturnValue defaultReturnMapping PyValue.none = Except.ok PyValue.none ∧
    (∀ s, mapReturnValue defaultReturnMapping (PyValue.str s) =
      Except.ok (PyValue.str s)) ∧
    (∀ n, mapReturnValue defaultReturnMapping (PyValue.int n) =
      Except.ok (PyValue.str (toString n))) :=
  ⟨fun _ _ => rfl, fun _ _ => rfl, fun _ => rfl, rfl, fun _ => rfl, fun _ => rfl⟩

/-- Claim C6 counterexample: with one argument mapping supplied and two
captured groups, `map_arguments` (the `zip` comprehension) DROPS the
second capture instead of passing it through as a raw string, and the
bound callable consequently receives a single argument (`cmdMismatch`
reports the number of arguments it received). -/
theorem map_arguments_truncation_cex :
    mapArguments (Option.some [pyIntMapping]) ["1", "2"] =
      Except.ok [PyValue.int 1] ∧
    mapArguments (Option.some [pyIntMapping]) ["1", "2"] ≠
      Except.ok [PyValue.int 1, PyValue.str "2"] ∧
    cmdMismatch.process_request "12" = Except.ok (PyValue.str "1") := by
  refine ⟨by decide, by decide, by decide⟩

/-- Claim C6 (amended): captured groups are mapped pairwise, the i-th
mapping applied to the i-th capture; supplying fewer mappings than
captures is impossible for a command built by `Cmd.__init__` (the arity
check rejects it, see C5), and `map_arguments` itself drops — rather than
passes through — any captures beyond the supplied mappings, because
`zip` stops at the shorter list. -/
theorem map_arguments_pairwise_zip :
    (∀ (f : ArgMapping) (fs : List ArgMapping) (a : String) (args : List String),
      mapArguments (Option.some (f :: fs)) (a :: args) = do
        let v ← f a
        let vs ← mapArguments (Option.some fs) args
        pure (v :: vs)) ∧
    (∀ (args : List String), mapArguments (Option.some []) args = Except.ok []) ∧
    (∀ (fs : List ArgMapping), mapArguments (Option.some fs) [] = Except.ok []) ∧
    mapArguments (Option.some [pyIntMapping]) ["1", "2"] =
      Except.ok [PyValue.int 1] ∧
    (∀ (fr : FuncRef) (pat : CompiledPattern) (rm : ReturnMapping)
        (fs : List ArgMapping),
      pat.groups ≠ fs.length →
      (mkCmd fr pat (Option.some fs) rm).toOption = Option.none) := by
  refine ⟨?_, ?_, ?_, by decide, ?_⟩
  · intro f fs a args
    simp only [mapArguments]
    rw [mapZipArgs]
    cases f a <;> cases mapZipArgs fs args <;> rfl
  · intro args
    rfl
  · intro fs
    simp only [mapArguments]
    cases fs <;> rfl
  · intro fr pat rm fs h
    simp [mkCmd, h, Except.toOption]

/-- Claim C6 witness for the amended claim's arity conjunct: the two-group
pattern with a single mapping is rejected by construction. -/
theorem map_arguments_pairwise_zip_witness :
    patTwoGroups.groups ≠ ([pyIntMapping] : List ArgMapping).length ∧
    (mkCmd (FuncRef.name "set_both") patTwoGroups
      (Option.some [pyIntMapping]) defaultReturnMapping).toOption =
      Option.none := by
  refine ⟨by decide, ?_⟩
  exact map_arguments_pairwise_zip.2.2.2.2 (FuncRef.name "set_both")
    patTwoGroups defaultReturnMapping [pyIntMapping] (by decide)

/-- Claim C2 counterexample: with endpoints foo (stopped) and bar
(running), a tick of 0.1 does NOT call bar's run cycle with the full 0.1:
the budget is divided by the number of registered adapters (two), so bar
receives 0.05 and one idle sleep of 0.05 is performed for foo — exactly
what `test_handle_calls_all_adapters_or_sleeps` asserts. -/
theorem scheduler_divides_by_total_cex :
    adapterCollectionHandle [("foo", false), ("bar", true)] (1 / 10) =
      [SchedulerEvent.idleSleep (1 / 20), SchedulerEvent.runCycle "bar" (1 / 20)] ∧
    SchedulerEvent.runCycle "bar" (1 / 10) ∉
      adapterCollectionHandle [("foo", false), ("bar", true)] (1 / 10) := by
  have heq : adapterCollectionHandle [("foo", false), ("bar", true)] (1 / 10) =
      [SchedulerEvent.idleSleep (1 / 20), SchedulerEvent.runCycle "bar" (1 / 20)] := by
    show _ = _
    norm_num [adapterCollectionHandle]
  refine ⟨heq, ?_⟩
  rw [heq]
  simp only [List.mem_cons, List.not_mem_nil, or_false]
  push_neg
  constructor
  · exact fun h => SchedulerEvent.noConfusion h
  · intro h
    injection h with h1 h2
    norm_num at h2

/-- Claim C2 (amended): the scheduler divides the tick budget T by the
number of REGISTERED endpoints; each running endpoint's run cycle gets
that equal slice and each stopped endpoint contributes an idle sleep of
the same slice, so with two running endpoints each receives T/2, with
zero running endpoints no run-cycle call occurs and the slept slices sum
to the full T, and with foo stopped and bar running a tick of 0.1 calls
bar's run cycle with 0.05. -/
theorem scheduler_tick_division :
    (∀ (n1 n2 : String) (T : ℚ),
      adapterCollectionHandle [(n1, true), (n2, true)] T =
        [SchedulerEvent.runCycle n1 (T / 2), SchedulerEvent.runCycle n2 (T / 2)]) ∧
    (∀ (n1 n2 : String) (T : ℚ),
      adapterCollectionHandle [(n1, false), (n2, false)] T =
        [SchedulerEvent.idleSleep (T / 2), SchedulerEvent.idleSleep (T / 2)] ∧
      T / 2 + T / 2 = T) ∧
    adapterCollectionHandle [("foo", false), ("bar", true)] (1 / 10) =
      [SchedulerEvent.idleSleep (1 / 20), SchedulerEvent.runCycle "bar" (1 / 20)] := by
  refine ⟨?_, ?_, ?_⟩
  · intro n1 n2 T
    simp [adapterCollectionHandle]
  · intro n1 n2 T
    constructor
    · simp [adapterCollectionHandle]
    · ring
  · show _ = _
    norm_num [adapterCollectionHandle]

/-- Claim C1: dispatch scans the binding table in order and invokes
exactly the first bound command whose pattern matches at the start of the
request; any later command whose pattern also matches is never invoked.
Selection depends only on `can_process`, i.e. on `re.match` succeeding,
which does not require the match to reach the end of the request. -/
theorem dispatch_first_match_wins (t : StreamTarget) (request : String)
    (pre post : List Cmd) (A B : Cmd)
    (htable : t.bound_commands = pre ++ A :: post)
    (hpre : ∀ c ∈ pre, c.can_process request = false)
    (hA : A.can_process request = true)
    (hBpost : B ∈ post) (hB : B.can_process request = true) :
    (foundTerminator t request).invoked = [A] ∧
    (B ≠ A → B ∉ (foundTerminator t request).invoked) := by
  have hfind : t.bound_commands.find? (fun c => c.can_process request) =
      Option.some A := by
    rw [htable]
    exact find_first_of_none_before (fun c => c.can_process request)
      pre A post hpre hA
  have hdis : dispatchTry t request = (A.process_request request, [A]) := by
    unfold dispatchTry
    rw [hfind]
  have hinv : (foundTerminator t request).invoked = [A] := by
    rw [foundTerminator_invoked_eq, hdis]
  refine ⟨hinv, fun hne => ?_⟩
  rw [hinv]
  simp [hne]

/-- Claim C1 witness: with the table [cmdA, cmdB] both commands match
"S=10", cmdA is the one invoked, cmdB is not, and cmdA's match stops at
position 2, strictly before the end of the four-character request —
a partial-prefix match suffices for selection. -/
theorem dispatch_first_match_wins_witness :
    (foundTerminator tFirstMatch "S=10").invoked = [cmdA] ∧
    cmdB ∉ (foundTerminator tFirstMatch "S=10").invoked ∧
    cmdB.can_process "S=10" = true ∧
    patLitSEq.matchAt "S=10" = Option.some ⟨2, []⟩ ∧
    2 < "S=10".length := by
  have hne : cmdB ≠ cmdA := by
    intro h
    have hs := congrArg (fun c => c.pattern.source) h
    simp [cmdA, cmdB, patLitS, patLitSEq] at hs
  have h := dispatch_first_match_wins tFirstMatch "S=10" [] [cmdB] cmdA cmdB
    rfl (by simp) (by decide) (by simp) (by decide)
  exact ⟨h.1, h.2 hne, by decide, by decide, by decide⟩

/-- Claim C3: any exception raised during dispatch (including the
"no command matched" error) is passed to the endpoint's error hook with
the offending request; nothing escapes the connection boundary, and the
hook's return value is treated exactly like a normal mapped return value:
None writes no bytes, a string is framed with the output terminator and
written. -/
theorem dispatch_error_absorbed_by_hook (t : StreamTarget)
    (request e : String)
    (h : (dispatchTry t request).1 = Except.error e) :
    (foundTerminator t request).hookCalls = [(request, e)] ∧
    (t.handle_error request e = PyValue.none →
      (foundTerminator t request).uncaught = Option.none ∧
      (foundTerminator t request).written = Option.none) ∧
    (∀ s, t.handle_error request e = PyValue.str s →
      (foundTerminator t request).uncaught = Option.none ∧
      (foundTerminator t request).written =
        Option.some (s ++ t.out_terminator)) := by
  have heq := foundTerminator_errCase t request e h
  refine ⟨?_, ?_, ?_⟩
  · rw [heq]
    split <;> rfl
  · intro hn
    rw [heq, hn]
    simp [pushReply]
  · intro s hs
    rw [heq, hs]
    simp [pushReply]

/-- Claim C3 witness: a target with an empty binding table and a hook
replying "ERR": the request "Q?" matches nothing, the hook receives the
"no command matched" error, nothing escapes, and the hook's reply is
framed with the output terminator exactly like a normal reply. -/
theorem dispatch_error_absorbed_by_hook_witness :
    (foundTerminator tNoCommands "Q?").hookCalls =
      [("Q?", "None of the device\x27s commands matched.")] ∧
    (foundTerminator tNoCommands "Q?").uncaught = Option.none ∧
    (foundTerminator tNoCommands "Q?").written =
      Option.some ("ERR" ++ "\r") := by
  have h := dispatch_error_absorbed_by_hook tNoCommands "Q?"
    "None of the device\x27s commands matched." rfl
  exact ⟨h.1, (h.2.2 "ERR" rfl).1, (h.2.2 "ERR" rfl).2⟩

/-- Claim C7: when dispatch produces a mapped return value, a None reply
writes zero bytes to the connection, and a string reply writes exactly
that string concatenated with the configured output terminator — no other
framing. -/
theorem null_reply_suppression (t : StreamTarget) (request : String)
    (r : PyValue)
    (h : (dispatchTry t request).1 = Except.ok r) :
    (r = PyValue.none →
      (foundTerminator t request).written = Option.none ∧
      (foundTerminator t request).uncaught = Option.none) ∧
    (∀ s, r = PyValue.str s →
      (foundTerminator t request).written =
        Option.some (s ++ t.out_terminator) ∧
      (foundTerminator t request).uncaught = Option.none) := by
  have heq := foundTerminator_okCase t request r h
  refine ⟨?_, ?_⟩
  · intro hn
    rw [heq, hn]
    simp [pushReply]
  · intro s hs
    rw [heq, hs]
    simp [pushReply]

/-- Claim C7 witness: a pure-setter command returning None produces no
bytes at all, while a command returning 10 (mapped to "10" by the default
return mapping) writes exactly "10" followed by the terminator. -/
theorem null_reply_suppression_witness :
    (foundTerminator tNullReply "X").written = Option.none ∧
    (foundTerminator tTenReply "X").written = Option.some ("10" ++ "\r") := by
  have h1 := null_reply_suppression tNullReply "X" PyValue.none rfl
  have h2 := null_reply_suppression tTenReply "X" (PyValue.str "10") (by decide)
  exact ⟨(h1.1 rfl).1, (h2.2 "10" rfl).1⟩

/-- The pattern sources of a binding table. -/
def tableSources (table : List Cmd) : List String :=
  table.map (fun c => c.pattern.source)

theorem addBoundCommands_inv :
    ∀ (bs : List Cmd) (P : List String) (A : List Cmd)
      (pa : List String × List Cmd),
    addBoundCommands bs P A = Except.ok pa →
    (tableSources A).Nodup ∧ (∀ s ∈ tableSources A, s ∈ P) →
    (tableSources pa.2).Nodup ∧ (∀ s ∈ tableSources pa.2, s ∈ pa.1) := by
  intro bs
  induction bs with
  | nil =>
    intro P A pa h hinv
    simp only [addBoundCommands] at h
    cases h
    exact hinv
  | cons c rest ih =>
    intro P A pa h hinv
    simp only [addBoundCommands] at h
    split at h
    · exact absurd h (by simp)
    · rename_i hnotmem
      have hnotA : c.pattern.source ∉ tableSources A := fun hm =>
        hnotmem (hinv.2 _ hm)
      have happ : tableSources (A ++ [c]) =
          tableSources A ++ [c.pattern.source] := by
        simp [tableSources]
      refine ih (P ++ [c.pattern.source]) (A ++ [c]) pa h ⟨?_, ?_⟩
      · rw [happ, List.nodup_append]
        refine ⟨hinv.1, List.nodup_singleton _, fun x hx hxs => ?_⟩
        have hxc : x = c.pattern.source := by simpa using hxs
        subst hxc
        exact hnotA hx
      · intro s hs
        rw [happ] at hs
        rcases List.mem_append.mp hs with hs | hs
        · exact List.mem_append_left _ (hinv.2 _ hs)
        · have hsc : s = c.pattern.source := by simpa using hs
          subst hsc
          exact List.mem_append_right _ (by simp)

theorem bindCommandsLoop_nodup :
    ∀ (specs : List CommandSpec) (a d : Target) (P : List String)
      (A : List Cmd) (table : List Cmd),
    bindCommandsLoop specs a d P A = Except.ok table →
    (tableSources A).Nodup ∧ (∀ s ∈ tableSources A, s ∈ P) →
    (tableSources table).Nodup := by
  intro specs
  induction specs with
  | nil =>
    intro a d P A table h hinv
    simp only [bindCommandsLoop] at h
    cases h
    exact hinv.1
  | cons spec rest ih =>
    intro a d P A table h hinv
    cases hb : bindOne spec a d with
    | error e =>
      simp only [bindCommandsLoop, hb] at h
      exact Except.noConfusion h
    | ok bound =>
      simp only [bindCommandsLoop, hb] at h
      cases ha : addBoundCommands bound P A with
      | error e =>
        simp only [ha] at h
        exact Except.noConfusion h
      | ok pa =>
        simp only [ha] at h
        exact ih a d pa.1 pa.2 table h
          (addBoundCommands_inv bound P A pa ha hinv)

/-- Claim C4: binding two command specs whose resolved compiled patterns
are identical raises the duplicate-pattern binding error on the second
occurrence, and any table that binding does return is free of duplicate
patterns; on error no table is produced at all (`bindCommands` returns
the error alone), so binding is all-or-nothing. -/
theorem binding_pattern_uniqueness
    (adapter device : Target) (c1 c2 : Cmd)
    (f1 f2 : List PyValue → Except String PyValue)
    (h1 : c1.func = FuncRef.callable f1)
    (h2 : c2.func = FuncRef.callable f2)
    (hsrc : c1.pattern.source = c2.pattern.source) :
    bindCommands [CommandSpec.cmd c1, CommandSpec.cmd c2] adapter device =
      Except.error (dupPatternMsg c2.pattern.source) ∧
    (∀ (specs : List CommandSpec) (a d : Target) (table : List Cmd),
      bindCommands specs a d = Except.ok table →
      (tableSources table).Nodup) := by
  constructor
  · simp [bindCommands, bindCommandsLoop, bindOne, bindSpec, Cmd.bind,
      h1, h2, pyTruthyList, addBoundCommands, hsrc]
  · intro specs a d table h
    exact bindCommandsLoop_nodup specs a d [] [] table h (by simp [tableSources])

/-- Claim C4 witness: two directly-callable commands sharing the compiled
pattern "S" make binding fail with the duplicate-pattern error. -/
theorem binding_pattern_uniqueness_witness :
    bindCommands [CommandSpec.cmd cmdDup1, CommandSpec.cmd cmdDup2]
      emptyTarget emptyTarget =
      Except.error (dupPatternMsg "S") := by
  exact (binding_pattern_uniqueness emptyTarget emptyTarget cmdDup1 cmdDup2
    _ _ rfl rfl rfl).1

/-- Claim C8 (code bug): a named-member `Cmd` spec is resolved first on
the interface, then on the device (third and fourth conjuncts), but when
the member exists on neither, the fatal binding error does NOT name the
missing member: `Cmd.__init__` stores `None` in the `member` attribute
that the error message formats, so the message says "member 'None'"
instead of naming `missing_method`. -/
theorem binding_error_names_none :
    bindCommands [CommandSpec.cmd cmdNamedMissing] ifaceTarget deviceTarget =
      Except.error "Unable to produce callable object for non-existing member \x27None\x27 of device or interface." ∧
    ("Unable to produce callable object for non-existing member \x27None\x27 of device or interface." : String) ≠
      missingMemberMsg (Option.some "missing_method") ∧
    (bindCommands [CommandSpec.cmd cmdNamedGet] ifaceTarget deviceTarget).map
      (fun table => table.map (fun c => c.process_request "S")) =
      Except.ok [Except.ok (PyValue.str "adapter")] ∧
    (bindCommands [CommandSpec.cmd cmdNamedDevOnly] ifaceTarget deviceTarget).map
      (fun table => table.map (fun c => c.process_request "S")) =
      Except.ok [Except.ok (PyValue.str "device")] := by
  refine ⟨rfl, by decide, rfl, rfl⟩

/-- Claim C10: a `Var` spec whose member exists on the target but which
supplies neither a read nor a write pattern binds to the empty list,
which is falsy in `bind(self) or bind(device) or None`, so the adapter's
command binding fails with the same fatal "non-existing member" error as
for a genuinely missing member — even though the member exists. -/
theorem var_without_patterns_binding_error
    (v : Var) (adapter device : Target)
    (hmem : v.member ∈ adapter.members)
    (hr : v.read_pattern = Option.none)
    (hw : v.write_pattern = Option.none) :
    bindCommands [CommandSpec.var v] adapter device =
      Except.error (missingMemberMsg (Option.some v.member)) := by
  by_cases hdm : v.member ∈ device.members <;>
    simp [bindCommands, bindCommandsLoop, bindOne, bindSpec, Var.bind,
      varGetterCmds, varSetterCmds, hmem, hr, hw, hdm, pyTruthyList,
      CommandSpec.member]

/-- Claim C10 witness: the member "speed" exists on the target, the spec
has no patterns, and binding fails with the error naming "speed" as a
non-existing member. -/
theorem var_without_patterns_binding_error_witness :
    ("speed" : String) ∈ speedTarget.members ∧
    bindCommands [CommandSpec.var varSpeed] speedTarget emptyTarget =
      Except.error (missingMemberMsg (Option.some "speed")) := by
  refine ⟨by simp [speedTarget], ?_⟩
  exact var_without_patterns_binding_error varSpeed speedTarget emptyTarget
    (by simp [speedTarget, varSpeed]) rfl rfl
